import Mathlib

/-!
# Order service: cache-aside handlers of `services/order-service/main.go`

A shallow embedding of the four order handlers (`getOrdersHandler`,
`getOrderHandler`, `createOrderHandler`, `updateOrderStatusHandler`) as pure
functions on an explicit world: the `orders` table, the Redis key space and the
list of adapter calls issued so far.

What the libraries decide is an explicit input of every handler:

* `Encoder` stands for `encoding/json` (`json.Marshal` on `Order` and `[]Order`);
* `Env` carries the outcome of the environment during one request: the clock,
  whether a Redis command fails, whether and how the database call fails, and
  the `id` / `created_at` the database assigns on `INSERT`;
* request bodies arrive as the result of `json.NewDecoder(r.Body).Decode`.

Go `int` values are never used in arithmetic by the handlers, so they are
represented by `Int`; `strconv.Atoi` keeps its 64-bit range check.
`float64` prices are carried unchanged, never computed with, and represented by
the rational number they stand for; `time.Time` is represented by an instant in
seconds.
-/

namespace OrderService

/-! ## Data model -/

/-- Order is the Go struct `Order` (main.go, lines 28-36). -/
structure Order where
  ID : Int
  UserID : Int
  ProductID : Int
  Quantity : Int
  TotalPrice : Rat
  Status : String
  CreatedAt : Nat
deriving DecidableEq

/-- The zero value of `Order`, what `var order Order` declares. -/
def Order.zero : Order :=
  { ID := 0, UserID := 0, ProductID := 0, Quantity := 0, TotalPrice := 0,
    Status := "", CreatedAt := 0 }

/-- The part of `encoding/json` the handlers use: `json.Marshal(order)` and
`json.Marshal(orders)`. The encoder is a parameter; every theorem below
holds for every encoder. -/
structure Encoder where
  marshalOrder : Order → String
  marshalOrders : List Order → String

/-! ## Decimal conversion: `strconv.Atoi` and the `%d` verb -/

/-- The decimal digit for `d < 10`. -/
def digitChar (d : Nat) : Char := Char.ofNat (48 + d)

/-- The value of a decimal digit, `none` for any other character. -/
def digitValue (c : Char) : Option Nat :=
  if 48 ≤ c.toNat ∧ c.toNat ≤ 57 then some (c.toNat - 48) else none

/-- Decimal digits of `n`, most significant first; `fuel` bounds the recursion
and `n + 1` is always enough. -/
def natDigits : Nat → Nat → List Char
  | 0, _ => []
  | fuel + 1, n =>
    if n < 10 then [digitChar n] else natDigits fuel (n / 10) ++ [digitChar (n % 10)]

/-- The text `fmt.Sprintf("%d", i)` produces. -/
def itoa : Int → String
  | Int.ofNat n => String.mk (natDigits (n + 1) n)
  | Int.negSucc n => String.mk ('-' :: natDigits (n + 2) (n + 1))

/-- Reads a run of decimal digits, accumulating from `acc`. -/
def parseDigits : List Char → Nat → Option Nat
  | [], acc => some acc
  | c :: cs, acc =>
    match digitValue c with
    | some d => parseDigits cs (acc * 10 + d)
    | none => none

/-- Signed decimal reading without a range check: an optional sign followed by
at least one digit. -/
def parseSigned : List Char → Option Int
  | [] => none
  | c :: cs =>
    if c = '-' then
      (if cs = [] then none else (parseDigits cs 0).map (fun n => -(n : Int)))
    else if c = '+' then
      (if cs = [] then none else (parseDigits cs 0).map (fun n => (n : Int)))
    else (parseDigits (c :: cs) 0).map (fun n => (n : Int))

/-- The function `strconv.Atoi` on a 64-bit platform: `none` is a syntax or range
error. -/
def atoi (s : String) : Option Int :=
  match parseSigned s.data with
  | some v => if -(2 : Int) ^ 63 ≤ v ∧ v < (2 : Int) ^ 63 then some v else none
  | none => none

/-- Cache key of one order, `fmt.Sprintf("order:%d", orderID)`. -/
def orderKey (orderID : Int) : String := "order:" ++ itoa orderID

/-! ## Redis key space -/

/-- A stored value with the instant at which it expires. -/
structure CacheEntry where
  value : String
  expiresAt : Nat
deriving DecidableEq

/-- The Redis key space. -/
abbrev Cache := String → Option CacheEntry

/-- The empty key space. -/
def Cache.empty : Cache := fun _ => none

/-- What `GET key` sees at instant `now`: an entry that has not expired. -/
def Cache.get (c : Cache) (now : Nat) (key : String) : Option String :=
  match c key with
  | some e => if now < e.expiresAt then some e.value else none
  | none => none

/-- The effect of `SET key value EX ttl` at instant `now`. -/
def Cache.set (c : Cache) (now : Nat) (key value : String) (ttl : Nat) : Cache :=
  fun k => if k = key then some { value := value, expiresAt := now + ttl } else c k

/-- The effect of `DEL keys...`. -/
def Cache.del (c : Cache) (keys : List String) : Cache :=
  fun k => if k ∈ keys then none else c k

/-! ## World, environment and adapter calls -/

/-- One call issued to the record store or to the cache. -/
inductive Call where
  | redisGet (key : String)
  | redisSet (key value : String) (ttl : Nat)
  | redisDel (keys : List String)
  | dbSelectAll
  | dbSelectByID (id : Int)
  | dbInsert (userID productID quantity : Int) (totalPrice : Rat) (status : String)
  | dbUpdateStatus (status : String) (id : Int)
deriving DecidableEq

/-- The state the handlers act on: the rows of table `orders`, the Redis key
space, and the adapter calls issued so far (oldest first). -/
structure World where
  orders : List Order
  cache : Cache
  calls : List Call

/-- How a database statement fails. `failed` is an error returned by
`db.Query`, `QueryRow(...).Scan` or `rows.Scan`. `cutShort` is an error that
ends the result set after `rowsRead` rows: `rows.Next()` returns false and the
error stays in `rows.Err()`. -/
inductive StoreError where
  | failed (msg : String)
  | cutShort (rowsRead : Nat) (msg : String)
deriving DecidableEq

/-- The text of the error, `err.Error()`. -/
def StoreError.msg : StoreError → String
  | StoreError.failed msg => msg
  | StoreError.cutShort _ msg => msg

/-- Outcome of the environment during one request. Each handler issues at most
one Redis read, one database statement and one Redis write. -/
structure Env where
  /-- Clock of the Redis server, in seconds. -/
  now : Nat
  /-- The command `Get` returns an error other than `redis.Nil`. -/
  redisGetFails : Bool
  /-- The command `Set` fails and stores nothing. -/
  redisSetFails : Bool
  /-- The command `Del` fails and deletes nothing. -/
  redisDelFails : Bool
  /-- The database statement fails with this error; a failing statement leaves
  the table as it was. -/
  dbError : Option StoreError
  /-- Value of `id` the database assigns to an inserted row. -/
  insertedID : Int
  /-- Value of `created_at` the database assigns to an inserted row. -/
  insertedAt : Nat

/-- Result of `redisClient.Get(ctx, key).Result()`: a value with `err == nil`,
the miss `redis.Nil`, or another error. -/
inductive RedisReply where
  | val (cachedData : String)
  | nil
  | err
deriving DecidableEq

/-- Call `redisClient.Get(ctx, key).Result()`. -/
def redisGet (env : Env) (w : World) (key : String) : World × RedisReply :=
  ({ w with calls := w.calls ++ [Call.redisGet key] },
    if env.redisGetFails then RedisReply.err
    else match w.cache.get env.now key with
      | some v => RedisReply.val v
      | none => RedisReply.nil)

/-- Call `redisClient.Set(ctx, key, value, ttl)`; the handlers drop its result. -/
def redisSet (env : Env) (w : World) (key value : String) (ttl : Nat) : World :=
  { w with
    cache := if env.redisSetFails then w.cache else w.cache.set env.now key value ttl
    calls := w.calls ++ [Call.redisSet key value ttl] }

/-- Call `redisClient.Del(ctx, keys...)`; the handlers drop its result. -/
def redisDel (env : Env) (w : World) (keys : List String) : World :=
  { w with
    cache := if env.redisDelFails then w.cache else w.cache.del keys
    calls := w.calls ++ [Call.redisDel keys] }

/-- Rows in the order of `ORDER BY id DESC`. -/
def selectAll (rows : List Order) : List Order :=
  rows.insertionSort (fun a b => b.ID ≤ a.ID)

/-- The row `WHERE id = $1` selects, `none` standing for `sql.ErrNoRows`. -/
def selectByID (rows : List Order) (id : Int) : Option Order :=
  rows.find? (fun o => decide (o.ID = id))

/-- Rows after `UPDATE orders SET status = $1 WHERE id = $2`. -/
def setStatus (rows : List Order) (status : String) (id : Int) : List Order :=
  rows.map (fun o => if o.ID = id then { o with Status := status } else o)

/-- Statement `SELECT ... FROM orders ORDER BY id DESC` with the scan loop
`for rows.Next()` (main.go, lines 151-171). An error of `db.Query` or of
`rows.Scan` is returned; when the result set is cut short the loop just ends,
`rows.Err()` is not read, and the rows scanned so far are the result. -/
def dbSelectAll (env : Env) (w : World) : World × Except String (List Order) :=
  ({ w with calls := w.calls ++ [Call.dbSelectAll] },
    match env.dbError with
    | some (StoreError.failed e) => Except.error e
    | some (StoreError.cutShort rowsRead _) => Except.ok ((selectAll w.orders).take rowsRead)
    | none => Except.ok (selectAll w.orders))

/-- Statement `SELECT ... FROM orders WHERE id = $1` with `Scan`, which returns
every error of the statement, `rows.Err()` included; `ok none` is
`sql.ErrNoRows`. -/
def dbSelectByID (env : Env) (w : World) (id : Int) : World × Except String (Option Order) :=
  ({ w with calls := w.calls ++ [Call.dbSelectByID id] },
    match env.dbError with
    | some e => Except.error e.msg
    | none => Except.ok (selectByID w.orders id))

/-- Statement `INSERT INTO orders (user_id, product_id, quantity, total_price,
status) VALUES (...) RETURNING id, created_at`: the five columns come from the
request, `id` and `created_at` from the database. -/
def dbInsert (env : Env) (w : World) (order : Order) : World × Except String (Int × Nat) :=
  let call := Call.dbInsert order.UserID order.ProductID order.Quantity order.TotalPrice
    order.Status
  match env.dbError with
  | some e => ({ w with calls := w.calls ++ [call] }, Except.error e.msg)
  | none =>
    ({ w with
        orders := w.orders ++ [{ order with ID := env.insertedID, CreatedAt := env.insertedAt }]
        calls := w.calls ++ [call] },
      Except.ok (env.insertedID, env.insertedAt))

/-- Statement `UPDATE orders SET status = $1 WHERE id = $2 RETURNING ...` with
`Scan`; `ok none` is `sql.ErrNoRows`. -/
def dbUpdateStatus (env : Env) (w : World) (status : String) (id : Int) :
    World × Except String (Option Order) :=
  match env.dbError with
  | some e =>
    ({ w with calls := w.calls ++ [Call.dbUpdateStatus status id] }, Except.error e.msg)
  | none =>
    ({ w with
        orders := setStatus w.orders status id
        calls := w.calls ++ [Call.dbUpdateStatus status id] },
      Except.ok (selectByID (setStatus w.orders status id) id))

/-! ## Responses -/

/-- What a handler writes. The constructors are the write sites of main.go:
`http.Error`, the two `fmt.Fprintf` of cached data, and the four response maps
passed to `json.NewEncoder(w).Encode`. -/
inductive Payload where
  | error (msg : String)
  | ordersFromCache (cachedData : String)
  | ordersFromDatabase (orders : List Order)
  | orderFromCache (cachedData : String)
  | orderFromDatabase (order : Order)
  | created (order : Order)
  | statusUpdated (order : Order)
deriving DecidableEq

/-- HTTP status code and written content. -/
structure Response where
  code : Nat
  payload : Payload
deriving DecidableEq

/-- The bytes of the response body. `http.Error` prints the message and a
newline; `fmt.Fprintf` splices the cached text into its format string;
`Encode` writes the map with its keys sorted, followed by a newline. -/
def Payload.body (enc : Encoder) : Payload → String
  | Payload.error msg => msg ++ "\n"
  | Payload.ordersFromCache cachedData =>
    "\x7b\"orders\":" ++ cachedData ++ ",\"source\":\"cache\"\x7d"
  | Payload.ordersFromDatabase orders =>
    "\x7b\"count\":" ++ itoa (orders.length : Int) ++ ",\"orders\":" ++ enc.marshalOrders orders
      ++ ",\"source\":\"database\"\x7d\n"
  | Payload.orderFromCache cachedData =>
    "\x7b\"order\":" ++ cachedData ++ ",\"source\":\"cache\"\x7d"
  | Payload.orderFromDatabase order =>
    "\x7b\"order\":" ++ enc.marshalOrder order ++ ",\"source\":\"database\"\x7d\n"
  | Payload.created order =>
    "\x7b\"message\":\"Order created successfully\",\"order\":" ++ enc.marshalOrder order
      ++ "\x7d\n"
  | Payload.statusUpdated order =>
    "\x7b\"message\":\"Order status updated successfully\",\"order\":" ++ enc.marshalOrder order
      ++ "\x7d\n"

/-- The `source` field of a read response, when it has one. -/
def Payload.source : Payload → Option String
  | Payload.ordersFromCache _ => some "cache"
  | Payload.ordersFromDatabase _ => some "database"
  | Payload.orderFromCache _ => some "cache"
  | Payload.orderFromDatabase _ => some "database"
  | _ => none

/-! ## Handlers -/

/-- Handler of `GET /api/v1/orders` (main.go, lines 138-186). -/
def getOrdersHandler (enc : Encoder) (env : Env) (w : World) : World × Response :=
  let cacheKey := "orders:all"
  match redisGet env w cacheKey with
  | (w, RedisReply.val cachedData) => (w, ⟨200, Payload.ordersFromCache cachedData⟩)
  | (w, _) =>
    match dbSelectAll env w with
    | (w, Except.error e) => (w, ⟨500, Payload.error e⟩)
    | (w, Except.ok orders) =>
      let ordersJSON := enc.marshalOrders orders
      let w := redisSet env w cacheKey ordersJSON 60
      (w, ⟨200, Payload.ordersFromDatabase orders⟩)

/-- Handler of `GET /api/v1/orders/{id}` (main.go, lines 188-236); `idVar` is
`mux.Vars(r)["id"]`. -/
def getOrderHandler (enc : Encoder) (env : Env) (w : World) (idVar : String) :
    World × Response :=
  match atoi idVar with
  | none => (w, ⟨400, Payload.error "Invalid order ID"⟩)
  | some orderID =>
    let cacheKey := orderKey orderID
    match redisGet env w cacheKey with
    | (w, RedisReply.val cachedData) => (w, ⟨200, Payload.orderFromCache cachedData⟩)
    | (w, _) =>
      match dbSelectByID env w orderID with
      | (w, Except.error e) => (w, ⟨500, Payload.error e⟩)
      | (w, Except.ok none) => (w, ⟨404, Payload.error "Order not found"⟩)
      | (w, Except.ok (some order)) =>
        let orderJSON := enc.marshalOrder order
        let w := redisSet env w cacheKey orderJSON (5 * 60)
        (w, ⟨200, Payload.orderFromDatabase order⟩)

/-- Handler of `POST /api/v1/orders` (main.go, lines 238-278); `body` is the
result of decoding the request body into an `Order`. -/
def createOrderHandler (env : Env) (w : World) (body : Except String Order) :
    World × Response :=
  match body with
  | Except.error e => (w, ⟨400, Payload.error e⟩)
  | Except.ok order =>
    if order.UserID = 0 ∨ order.ProductID = 0 ∨ order.Quantity = 0 then
      (w, ⟨400, Payload.error "User ID, Product ID, and Quantity are required"⟩)
    else
      let order := if order.Status = "" then { order with Status := "pending" } else order
      match dbInsert env w order with
      | (w, Except.error e) => (w, ⟨500, Payload.error e⟩)
      | (w, Except.ok (id, createdAt)) =>
        let order := { order with ID := id, CreatedAt := createdAt }
        let w := redisDel env w ["orders:all"]
        (w, ⟨201, Payload.created order⟩)

/-- Handler of `PATCH /api/v1/orders/{id}/status` (main.go, lines 280-328);
`body` is the result of decoding the request body into a `map[string]string`,
a map being its lookup function. -/
def updateOrderStatusHandler (env : Env) (w : World) (idVar : String)
    (body : Except String (String → Option String)) : World × Response :=
  match atoi idVar with
  | none => (w, ⟨400, Payload.error "Invalid order ID"⟩)
  | some orderID =>
    match body with
    | Except.error e => (w, ⟨400, Payload.error e⟩)
    | Except.ok data =>
      match data "status" with
      | none => (w, ⟨400, Payload.error "Status is required"⟩)
      | some status =>
        match dbUpdateStatus env w status orderID with
        | (w, Except.error e) => (w, ⟨500, Payload.error e⟩)
        | (w, Except.ok none) => (w, ⟨404, Payload.error "Order not found"⟩)
        | (w, Except.ok (some order)) =>
          let w := redisDel env w ["orders:all", orderKey orderID]
          (w, ⟨200, Payload.statusUpdated order⟩)

/-! ## Concrete inputs for evaluation -/

/-- Decimal text of `n`, padded with zeros on the left to `width` characters. -/
def padded (width n : Nat) : String :=
  String.mk (List.replicate (width - (itoa (n : Int)).length) '0') ++ itoa (n : Int)

/-- The RFC 3339 text, in UTC, of the instant `t` seconds after the Unix epoch,
which is how `time.Time` is marshalled when it has no fraction of a second. -/
def formatRFC3339 (t : Nat) : String :=
  let days := t / 86400
  let secs := t % 86400
  let z := days + 719468
  let era := z / 146097
  let doe := z % 146097
  let yoe := (doe - doe / 1460 + doe / 36524 - doe / 146096) / 365
  let doy := doe - (365 * yoe + yoe / 4 - yoe / 100)
  let mp := (5 * doy + 2) / 153
  let day := doy - (153 * mp + 2) / 5 + 1
  let month := if mp < 10 then mp + 3 else mp - 9
  let year := if month ≤ 2 then yoe + era * 400 + 1 else yoe + era * 400
  padded 4 year ++ "-" ++ padded 2 month ++ "-" ++ padded 2 day ++ "T"
    ++ padded 2 (secs / 3600) ++ ":" ++ padded 2 (secs % 3600 / 60) ++ ":"
    ++ padded 2 (secs % 60) ++ "Z"

/-- A concrete encoder for evaluating the handlers on examples. It writes what
`json.Marshal` writes for an `Order` whose price is a whole number and whose
status needs no escaping; a price that is not whole is written as a fraction. -/
def sampleEncoder : Encoder :=
  let one : Order → String := fun o =>
    "\x7b\"id\":" ++ itoa o.ID ++ ",\"user_id\":" ++ itoa o.UserID
      ++ ",\"product_id\":" ++ itoa o.ProductID ++ ",\"quantity\":" ++ itoa o.Quantity
      ++ ",\"total_price\":" ++ itoa o.TotalPrice.num
      ++ (if o.TotalPrice.den = 1 then "" else "/" ++ itoa (o.TotalPrice.den : Int))
      ++ ",\"status\":\"" ++ o.Status ++ "\",\"created_at\":\""
      ++ formatRFC3339 o.CreatedAt ++ "\"\x7d"
  { marshalOrder := one
    marshalOrders := fun os =>
      match os with
      | [] => "null"
      | o :: rest => "[" ++ rest.foldl (fun acc x => acc ++ "," ++ one x) (one o) ++ "]" }

/-- An environment in which every call succeeds. -/
def calmEnv (now : Nat) (insertedID : Int) (insertedAt : Nat) : Env :=
  { now := now, redisGetFails := false, redisSetFails := false, redisDelFails := false,
    dbError := none, insertedID := insertedID, insertedAt := insertedAt }

/-- A world with an empty cache and no call issued. -/
def freshWorld (rows : List Order) : World :=
  { orders := rows, cache := Cache.empty, calls := [] }

/-- Order 7, pending. -/
def sampleOrder : Order :=
  { ID := 7, UserID := 1, ProductID := 5, Quantity := 2, TotalPrice := 20,
    Status := "pending", CreatedAt := 1700000000 }

/-- A world holding order 7, with some text cached at instant 0 under both
keys. -/
def staleWorld : World :=
  { orders := [sampleOrder]
    cache := (Cache.empty.set 0 "orders:all" "[]" 60).set 0 (orderKey 7) "old" 300
    calls := [] }

/-- The decoded body `\x7b"status":"shipped"\x7d`. -/
def shippedPatch : String → Option String :=
  fun k => if k = "status" then some "shipped" else none

/-- Order 8, created after order 7. -/
def laterOrder : Order :=
  { ID := 8, UserID := 2, ProductID := 9, Quantity := 1, TotalPrice := 5,
    Status := "pending", CreatedAt := 1700000600 }

/-- An environment in which Redis answers and the result set of the database
statement breaks after one row. -/
def cutShortEnv (now : Nat) : Env :=
  { now := now, redisGetFails := false, redisSetFails := false, redisDelFails := false,
    dbError := some (StoreError.cutShort 1 "unexpected EOF"), insertedID := 0,
    insertedAt := 0 }

/-- An environment in which every Redis command fails. -/
def redisDownEnv (now : Nat) : Env :=
  { now := now, redisGetFails := true, redisSetFails := true, redisDelFails := true,
    dbError := none, insertedID := 0, insertedAt := 0 }

/-! ## Sequential runs -/

/-- One request to the order API. -/
inductive Request where
  | getOrders
  | getOrder (idVar : String)
  | createOrder (body : Except String Order)
  | updateOrderStatus (idVar : String) (body : Except String (String → Option String))

/-- Dispatch of a request to its handler, as the router does. -/
def serve (enc : Encoder) (env : Env) (w : World) : Request → World × Response
  | Request.getOrders => getOrdersHandler enc env w
  | Request.getOrder idVar => getOrderHandler enc env w idVar
  | Request.createOrder body => createOrderHandler env w body
  | Request.updateOrderStatus idVar body => updateOrderStatusHandler env w idVar body

/-- The Redis server drops a key (its TTL ran out). -/
def expire (w : World) (key : String) : World :=
  { w with cache := w.cache.del [key] }

/-- Every Redis command of the request succeeds. -/
def Env.redisUp (env : Env) : Prop :=
  env.redisGetFails = false ∧ env.redisSetFails = false ∧ env.redisDelFails = false

/-- Decision procedure for `Env.redisUp`. -/
instance Env.decRedisUp (env : Env) : Decidable env.redisUp :=
  inferInstanceAs (Decidable (_ ∧ _ ∧ _))

/-- The id the database is about to assign is not the id of an existing row. -/
def Env.freshID (env : Env) (w : World) : Prop :=
  ∀ o ∈ w.orders, o.ID ≠ env.insertedID

/-- Decision procedure for `Env.freshID`. -/
instance Env.decFreshID (env : Env) (w : World) : Decidable (env.freshID w) :=
  inferInstanceAs (Decidable (∀ o ∈ w.orders, o.ID ≠ env.insertedID))

/-- The result set of the request, if there is one, is read to its end or not
at all. -/
def Env.readsComplete (env : Env) : Prop :=
  ∀ (rowsRead : Nat) (msg : String), env.dbError ≠ some (StoreError.cutShort rowsRead msg)

/-- What a run asks of the store for a request: an insert gets a fresh id. -/
def Request.freshInsert (env : Env) (w : World) : Request → Prop
  | Request.createOrder _ => env.freshID w
  | _ => True

/-- Worlds reachable from any table and an empty cache by serving requests one
after the other, with keys expiring in between at any moment. -/
inductive Reachable (enc : Encoder) : World → Prop where
  | start (rows : List Order) : Reachable enc (freshWorld rows)
  | served (w : World) (env : Env) (req : Request) :
      Reachable enc w → env.redisUp → req.freshInsert env w →
      Reachable enc (serve enc env w req).1
  | expired (w : World) (key : String) : Reachable enc w → Reachable enc (expire w key)

/-- Cache coherence: an entry under `order:<id>` holds the serialization of the
current row with that id, and an entry under `orders:all` holds the
serialization of the current listing. -/
def Coherent (enc : Encoder) (w : World) : Prop :=
  (∀ (id : Int) (e : CacheEntry), w.cache (orderKey id) = some e →
      ∃ o, selectByID w.orders id = some o ∧ e.value = enc.marshalOrder o) ∧
  (∀ e : CacheEntry, w.cache "orders:all" = some e →
      e.value = enc.marshalOrders (selectAll w.orders))

/-! ## Decimal conversion lemmas -/

/-- Reading one more digit after a run multiplies by ten and adds the digit. -/
theorem parseDigits_append (l : List Char) (c : Char) (acc : Nat) :
    parseDigits (l ++ [c]) acc =
      (parseDigits l acc).bind (fun a => (digitValue c).map (fun d => a * 10 + d)) := by
  induction l generalizing acc with
  | nil =>
    simp only [List.nil_append, parseDigits, Option.bind]
    cases digitValue c <;> rfl
  | cons x xs ih =>
    simp only [List.cons_append, parseDigits]
    cases digitValue x with
    | none => rfl
    | some d => exact ih _

/-- The value of the digit written for `d` is `d`. -/
theorem digitValue_digitChar (d : Nat) (h : d < 10) : digitValue (digitChar d) = some d := by
  interval_cases d <;> decide

/-- Reading back the digits of `n` gives `n`. -/
theorem parseDigits_natDigits (fuel n : Nat) (h : n < fuel) :
    parseDigits (natDigits fuel n) 0 = some n := by
  induction fuel generalizing n with
  | zero => omega
  | succ f ih =>
    unfold natDigits
    split
    · rename_i hlt
      simp [parseDigits, digitValue_digitChar n hlt]
    · rename_i hge
      rw [parseDigits_append, ih (n / 10) (by omega),
        digitValue_digitChar (n % 10) (Nat.mod_lt _ (by decide))]
      simp only [Option.bind, Option.map]
      congr 1
      omega

/-- A number has at least one digit. -/
theorem natDigits_ne_nil (fuel n : Nat) (h : n < fuel) : natDigits fuel n ≠ [] := by
  cases fuel with
  | zero => omega
  | succ f =>
    unfold natDigits
    split <;> simp

/-- A non-empty run of digits reads as the number it denotes. -/
theorem parseSigned_digits (l : List Char) (n : Nat) (hne : l ≠ [])
    (h : parseDigits l 0 = some n) : parseSigned l = some (n : Int) := by
  cases l with
  | nil => exact absurd rfl hne
  | cons c cs =>
    have hc : digitValue c ≠ none := by
      intro hnone
      simp [parseDigits, hnone] at h
    have h1 : c ≠ '-' := by
      intro e; subst e; exact hc (by decide)
    have h2 : c ≠ '+' := by
      intro e; subst e; exact hc (by decide)
    simp only [parseSigned, h1, h2, if_false, h]
    rfl

/-- Reading back the `%d` text of an integer gives that integer. -/
theorem parseSigned_itoa (i : Int) : parseSigned (itoa i).data = some i := by
  cases i with
  | ofNat n =>
    exact parseSigned_digits _ n (natDigits_ne_nil _ _ (by omega))
      (parseDigits_natDigits _ _ (by omega))
  | negSucc n =>
    have hne := natDigits_ne_nil (n + 2) (n + 1) (by omega)
    have hp := parseDigits_natDigits (n + 2) (n + 1) (by omega)
    simp only [itoa, parseSigned, if_true, hne, if_false, hp, Option.map]
    rfl

/-- Distinct integers have distinct `%d` texts. -/
theorem itoa_injective (a b : Int) (h : itoa a = itoa b) : a = b := by
  have ha := parseSigned_itoa a
  rw [h, parseSigned_itoa b] at ha
  exact (Option.some.inj ha).symm

/-- Distinct order ids have distinct cache keys. -/
theorem orderKey_injective (a b : Int) (h : orderKey a = orderKey b) : a = b := by
  apply itoa_injective
  have h2 := congrArg String.data h
  simp only [orderKey, String.data_append] at h2
  exact String.ext (List.append_cancel_left h2)

/-- No order key is the listing key. -/
theorem orderKey_ne_ordersAll (id : Int) : orderKey id ≠ "orders:all" := by
  intro h
  have h2 := congrArg String.data h
  simp only [orderKey, String.data_append] at h2
  have h3 : "order:".data ++ (itoa id).data = "orders:all".data := h2
  have h4 : ("order:".data ++ (itoa id).data).take 6 = ("orders:all".data).take 6 := by
    rw [h3]
  rw [List.take_left' (by decide)] at h4
  exact absurd h4 (by decide)

/-! ## Outcomes of the handlers, case by case -/

/-- Outcome of `getOrdersHandler` on a cache hit. -/
theorem getOrdersHandler_hit (enc : Encoder) (env : Env) (w : World) (v : String)
    (hup : env.redisGetFails = false) (hhit : w.cache.get env.now "orders:all" = some v) :
    getOrdersHandler enc env w =
      ({ w with calls := w.calls ++ [Call.redisGet "orders:all"] },
        ⟨200, Payload.ordersFromCache v⟩) := by
  simp [getOrdersHandler, redisGet, hup, hhit]

/-- Outcome of `getOrdersHandler` on a miss or `Get` error, the query succeeding. -/
theorem getOrdersHandler_miss (enc : Encoder) (env : Env) (w : World)
    (hmiss : env.redisGetFails = true ∨ w.cache.get env.now "orders:all" = none)
    (hdb : env.dbError = none) :
    getOrdersHandler enc env w =
      (redisSet env
          { w with calls := w.calls ++ [Call.redisGet "orders:all"] ++ [Call.dbSelectAll] }
          "orders:all" (enc.marshalOrders (selectAll w.orders)) 60,
        ⟨200, Payload.ordersFromDatabase (selectAll w.orders)⟩) := by
  rcases hmiss with h | h
  · simp [getOrdersHandler, redisGet, h, dbSelectAll, hdb]
  · cases hf : env.redisGetFails <;>
      simp [getOrdersHandler, redisGet, hf, h, dbSelectAll, hdb]

/-- Outcome of `getOrdersHandler` on a miss or `Get` error, the query failing. -/
theorem getOrdersHandler_dbError (enc : Encoder) (env : Env) (w : World) (e : String)
    (hmiss : env.redisGetFails = true ∨ w.cache.get env.now "orders:all" = none)
    (hdb : env.dbError = some (StoreError.failed e)) :
    getOrdersHandler enc env w =
      ({ w with calls := w.calls ++ [Call.redisGet "orders:all"] ++ [Call.dbSelectAll] },
        ⟨500, Payload.error e⟩) := by
  rcases hmiss with h | h
  · simp [getOrdersHandler, redisGet, h, dbSelectAll, hdb]
  · cases hf : env.redisGetFails <;>
      simp [getOrdersHandler, redisGet, hf, h, dbSelectAll, hdb]


/-- Outcome of `getOrdersHandler` on a miss or `Get` error, the result set being
cut short after `rowsRead` rows: the rows read so far are cached and served. -/
theorem getOrdersHandler_cutShort (enc : Encoder) (env : Env) (w : World) (rowsRead : Nat)
    (e : String)
    (hmiss : env.redisGetFails = true ∨ w.cache.get env.now "orders:all" = none)
    (hdb : env.dbError = some (StoreError.cutShort rowsRead e)) :
    getOrdersHandler enc env w =
      (redisSet env
          { w with calls := w.calls ++ [Call.redisGet "orders:all"] ++ [Call.dbSelectAll] }
          "orders:all" (enc.marshalOrders ((selectAll w.orders).take rowsRead)) 60,
        ⟨200, Payload.ordersFromDatabase ((selectAll w.orders).take rowsRead)⟩) := by
  rcases hmiss with h | h
  · simp [getOrdersHandler, redisGet, h, dbSelectAll, hdb]
  · cases hf : env.redisGetFails <;>
      simp [getOrdersHandler, redisGet, hf, h, dbSelectAll, hdb]

/-- Outcome of `getOrderHandler` on a cache hit. -/
theorem getOrderHandler_hit (enc : Encoder) (env : Env) (w : World) (idVar : String)
    (orderID : Int) (v : String) (hid : atoi idVar = some orderID)
    (hup : env.redisGetFails = false) (hhit : w.cache.get env.now (orderKey orderID) = some v) :
    getOrderHandler enc env w idVar =
      ({ w with calls := w.calls ++ [Call.redisGet (orderKey orderID)] },
        ⟨200, Payload.orderFromCache v⟩) := by
  simp [getOrderHandler, redisGet, hup, hhit, hid]

/-- Outcome of `getOrderHandler` on a miss or `Get` error, the query succeeding. -/
theorem getOrderHandler_miss (enc : Encoder) (env : Env) (w : World) (idVar : String)
    (orderID : Int) (hid : atoi idVar = some orderID)
    (hmiss : env.redisGetFails = true ∨ w.cache.get env.now (orderKey orderID) = none)
    (hdb : env.dbError = none) :
    getOrderHandler enc env w idVar =
      match selectByID w.orders orderID with
      | none =>
        ({ w with calls := w.calls ++ [Call.redisGet (orderKey orderID)]
                    ++ [Call.dbSelectByID orderID] },
          ⟨404, Payload.error "Order not found"⟩)
      | some order =>
        (redisSet env
            { w with calls := w.calls ++ [Call.redisGet (orderKey orderID)]
                      ++ [Call.dbSelectByID orderID] }
            (orderKey orderID) (enc.marshalOrder order) 300,
          ⟨200, Payload.orderFromDatabase order⟩) := by
  cases hsel : selectByID w.orders orderID <;> rcases hmiss with h | h
  all_goals first
    | simp [getOrderHandler, hid, redisGet, h, dbSelectByID, hdb, hsel]; done
    | (cases hf : env.redisGetFails <;>
        simp [getOrderHandler, hid, redisGet, hf, h, dbSelectByID, hdb, hsel])

/-- Outcome of `getOrderHandler` on a miss or `Get` error, the query failing. -/
theorem getOrderHandler_dbError (enc : Encoder) (env : Env) (w : World) (idVar : String)
    (orderID : Int) (e : StoreError) (hid : atoi idVar = some orderID)
    (hmiss : env.redisGetFails = true ∨ w.cache.get env.now (orderKey orderID) = none)
    (hdb : env.dbError = some e) :
    getOrderHandler enc env w idVar =
      ({ w with calls := w.calls ++ [Call.redisGet (orderKey orderID)]
                  ++ [Call.dbSelectByID orderID] },
        ⟨500, Payload.error e.msg⟩) := by
  rcases hmiss with h | h
  · simp [getOrderHandler, hid, redisGet, h, dbSelectByID, hdb]
  · cases hf : env.redisGetFails <;>
      simp [getOrderHandler, hid, redisGet, hf, h, dbSelectByID, hdb]

/-- The order `createOrderHandler` sends to the database: the decoded body with
the status defaulted. -/
theorem createOrderHandler_ok (env : Env) (w : World) (order : Order)
    (hu : order.UserID ≠ 0) (hp : order.ProductID ≠ 0) (hq : order.Quantity ≠ 0)
    (hdb : env.dbError = none) :
    createOrderHandler env w (Except.ok order) =
      (redisDel env
          { w with
            orders := w.orders ++
              [{ order with
                  ID := env.insertedID
                  Status := if order.Status = "" then "pending" else order.Status
                  CreatedAt := env.insertedAt }]
            calls := w.calls ++ [Call.dbInsert order.UserID order.ProductID order.Quantity
              order.TotalPrice (if order.Status = "" then "pending" else order.Status)] }
          ["orders:all"],
        ⟨201, Payload.created
          { order with
            ID := env.insertedID
            Status := if order.Status = "" then "pending" else order.Status
            CreatedAt := env.insertedAt }⟩) := by
  unfold createOrderHandler dbInsert
  simp only [hu, hp, hq, or_self, if_false, hdb]
  by_cases hs : order.Status = "" <;> simp [hs]

/-- Outcome of `createOrderHandler` when the insert fails. -/
theorem createOrderHandler_dbError (env : Env) (w : World) (order : Order) (e : StoreError)
    (hu : order.UserID ≠ 0) (hp : order.ProductID ≠ 0) (hq : order.Quantity ≠ 0)
    (hdb : env.dbError = some e) :
    createOrderHandler env w (Except.ok order) =
      ({ w with calls := w.calls ++ [Call.dbInsert order.UserID order.ProductID order.Quantity
          order.TotalPrice (if order.Status = "" then "pending" else order.Status)] },
        ⟨500, Payload.error e.msg⟩) := by
  unfold createOrderHandler dbInsert
  simp only [hu, hp, hq, or_self, if_false, hdb]
  by_cases hs : order.Status = "" <;> simp [hs]

/-- Outcome of `createOrderHandler` when a required field is zero. -/
theorem createOrderHandler_invalid (env : Env) (w : World) (order : Order)
    (hz : order.UserID = 0 ∨ order.ProductID = 0 ∨ order.Quantity = 0) :
    createOrderHandler env w (Except.ok order) =
      (w, ⟨400, Payload.error "User ID, Product ID, and Quantity are required"⟩) := by
  simp [createOrderHandler, hz]

/-- Outcome of `updateOrderStatusHandler` when the update statement succeeds. -/
theorem updateOrderStatusHandler_db (env : Env) (w : World) (idVar : String) (orderID : Int)
    (data : String → Option String) (status : String) (hid : atoi idVar = some orderID)
    (hs : data "status" = some status) (hdb : env.dbError = none) :
    updateOrderStatusHandler env w idVar (Except.ok data) =
      match selectByID (setStatus w.orders status orderID) orderID with
      | none =>
        ({ w with
            orders := setStatus w.orders status orderID
            calls := w.calls ++ [Call.dbUpdateStatus status orderID] },
          ⟨404, Payload.error "Order not found"⟩)
      | some order =>
        (redisDel env
            { w with
              orders := setStatus w.orders status orderID
              calls := w.calls ++ [Call.dbUpdateStatus status orderID] }
            ["orders:all", orderKey orderID],
          ⟨200, Payload.statusUpdated order⟩) := by
  unfold updateOrderStatusHandler dbUpdateStatus
  simp only [hid, hs, hdb]
  cases selectByID (setStatus w.orders status orderID) orderID <;> rfl

/-- Outcome of `updateOrderStatusHandler` when the update statement fails. -/
theorem updateOrderStatusHandler_dbError (env : Env) (w : World) (idVar : String)
    (orderID : Int) (data : String → Option String) (status : String) (e : StoreError)
    (hid : atoi idVar = some orderID) (hs : data "status" = some status)
    (hdb : env.dbError = some e) :
    updateOrderStatusHandler env w idVar (Except.ok data) =
      ({ w with calls := w.calls ++ [Call.dbUpdateStatus status orderID] },
        ⟨500, Payload.error e.msg⟩) := by
  unfold updateOrderStatusHandler dbUpdateStatus
  simp only [hid, hs, hdb]


/-- A 400 answer to a decoded creation body means a required field is zero. -/
theorem createOrderHandler_badRequest (env : Env) (w : World) (order : Order)
    (hc : (createOrderHandler env w (Except.ok order)).2.code = 400) :
    order.UserID = 0 ∨ order.ProductID = 0 ∨ order.Quantity = 0 := by
  by_contra hz
  simp only [not_or] at hz
  obtain ⟨hu, hp, hq⟩ := hz
  cases hdb : env.dbError with
  | none => rw [createOrderHandler_ok env w order hu hp hq hdb] at hc; cases hc
  | some e => rw [createOrderHandler_dbError env w order e hu hp hq hdb] at hc; cases hc

/-- Outcome of `updateOrderStatusHandler` when the body has no `status` key. -/
theorem updateOrderStatusHandler_absent (env : Env) (w : World) (idVar : String)
    (orderID : Int) (data : String → Option String) (hid : atoi idVar = some orderID)
    (hs : data "status" = none) :
    updateOrderStatusHandler env w idVar (Except.ok data) =
      (w, ⟨400, Payload.error "Status is required"⟩) := by
  simp [updateOrderStatusHandler, hid, hs]

/-- A 400 answer to a decoded body on a well-formed id means `status` is absent. -/
theorem updateOrderStatusHandler_badRequest (env : Env) (w : World) (idVar : String)
    (orderID : Int) (data : String → Option String) (hid : atoi idVar = some orderID)
    (hc : (updateOrderStatusHandler env w idVar (Except.ok data)).2.code = 400) :
    data "status" = none := by
  cases hs : data "status" with
  | none => rfl
  | some status =>
    exfalso
    cases hdb : env.dbError with
    | some e =>
      rw [updateOrderStatusHandler_dbError env w idVar orderID data status e hid hs hdb] at hc
      cases hc
    | none =>
      rw [updateOrderStatusHandler_db env w idVar orderID data status hid hs hdb] at hc
      cases hsel : selectByID (setStatus w.orders status orderID) orderID <;>
        rw [hsel] at hc <;> cases hc

/-! ## Validation (C1, C2, C7, C8) -/

/-- C1, amended to the guard of the code: `createOrderHandler` answers a decoded
body with HTTP 400 exactly when `userId`, `productId` or `quantity` is zero; the
answer is then the "required" error with the world untouched, and the input
`{userId:0, productId:5, quantity:2}` is rejected. -/
theorem createOrder_rejects_iff_zero_field (env : Env) (w : World) (order : Order) :
    ((createOrderHandler env w (Except.ok order)).2.code = 400 ↔
      (order.UserID = 0 ∨ order.ProductID = 0 ∨ order.Quantity = 0)) ∧
    ((createOrderHandler env w (Except.ok order)).2.code = 400 →
      createOrderHandler env w (Except.ok order) =
        (w, ⟨400, Payload.error "User ID, Product ID, and Quantity are required"⟩)) ∧
    createOrderHandler env w
        (Except.ok { Order.zero with UserID := 0, ProductID := 5, Quantity := 2 }) =
      (w, ⟨400, Payload.error "User ID, Product ID, and Quantity are required"⟩) := by
  refine ⟨⟨createOrderHandler_badRequest env w order, fun hz => ?_⟩,
    fun hc => createOrderHandler_invalid env w order (createOrderHandler_badRequest env w order hc),
    rfl⟩
  rw [createOrderHandler_invalid env w order hz]

/-- C1 witness: the input `{userId:0, productId:5, quantity:2}` is answered with
400 and the world is untouched. -/
theorem createOrder_rejects_iff_zero_field_witness :
    (createOrderHandler (calmEnv 0 1 0) (freshWorld [])
      (Except.ok { Order.zero with UserID := 0, ProductID := 5, Quantity := 2 })).2.code = 400 ∧
    createOrderHandler (calmEnv 0 1 0) (freshWorld [])
      (Except.ok { Order.zero with UserID := 0, ProductID := 5, Quantity := 2 }) =
      (freshWorld [], ⟨400, Payload.error "User ID, Product ID, and Quantity are required"⟩) :=
  ⟨by decide,
    (createOrder_rejects_iff_zero_field (calmEnv 0 1 0) (freshWorld [])
      { Order.zero with UserID := 0, ProductID := 5, Quantity := 2 }).2.1 (by decide)⟩

/-- C1 counterexample: a creation input with a negative `userId` fails the
stated condition `userId > 0` and still is not rejected: the handler inserts
the row and answers 201. -/
theorem createOrder_accepts_negative_userId :
    ¬ ((0 : Int) < -1 ∧ (0 : Int) < 5 ∧ (0 : Int) < 2) ∧
    (createOrderHandler (calmEnv 0 1 0) (freshWorld [])
      (Except.ok { Order.zero with UserID := -1, ProductID := 5, Quantity := 2 })).2 =
      ⟨201, Payload.created
        { ID := 1, UserID := -1, ProductID := 5, Quantity := 2, TotalPrice := 0,
          Status := "pending", CreatedAt := 0 }⟩ ∧
    (createOrderHandler (calmEnv 0 1 0) (freshWorld [])
      (Except.ok { Order.zero with UserID := -1, ProductID := 5, Quantity := 2 })).1.orders =
      [{ ID := 1, UserID := -1, ProductID := 5, Quantity := 2, TotalPrice := 0,
          Status := "pending", CreatedAt := 0 }] := by
  decide

/-- C2, amended to the guard of the code: with a well-formed id and a decoded
body, `updateOrderStatusHandler` answers HTTP 400 exactly when the key `status`
is absent from the body, and then it answers "Status is required" and leaves
the world, the store included, untouched. -/
theorem updateOrderStatus_rejects_iff_status_absent (env : Env) (w : World) (idVar : String)
    (orderID : Int) (data : String → Option String) (hid : atoi idVar = some orderID) :
    ((updateOrderStatusHandler env w idVar (Except.ok data)).2.code = 400 ↔
      data "status" = none) ∧
    ((updateOrderStatusHandler env w idVar (Except.ok data)).2.code = 400 →
      updateOrderStatusHandler env w idVar (Except.ok data) =
        (w, ⟨400, Payload.error "Status is required"⟩)) := by
  refine ⟨⟨updateOrderStatusHandler_badRequest env w idVar orderID data hid, fun hs => ?_⟩,
    fun hc => updateOrderStatusHandler_absent env w idVar orderID data hid
      (updateOrderStatusHandler_badRequest env w idVar orderID data hid hc)⟩
  rw [updateOrderStatusHandler_absent env w idVar orderID data hid hs]

/-- C2 witness: the path names order 7 and the body has no `status` key. -/
theorem updateOrderStatus_rejects_iff_status_absent_witness :
    atoi "7" = some 7 ∧
    (((updateOrderStatusHandler (calmEnv 0 0 0) (freshWorld [{ Order.zero with ID := 7 }]) "7"
        (Except.ok (fun _ => none))).2.code = 400 ↔
      (fun _ : String => (none : Option String)) "status" = none) ∧
    ((updateOrderStatusHandler (calmEnv 0 0 0) (freshWorld [{ Order.zero with ID := 7 }]) "7"
        (Except.ok (fun _ => none))).2.code = 400 →
      updateOrderStatusHandler (calmEnv 0 0 0) (freshWorld [{ Order.zero with ID := 7 }]) "7"
        (Except.ok (fun _ => none)) =
        (freshWorld [{ Order.zero with ID := 7 }],
          ⟨400, Payload.error "Status is required"⟩))) :=
  ⟨by decide,
    updateOrderStatus_rejects_iff_status_absent (calmEnv 0 0 0)
      (freshWorld [{ Order.zero with ID := 7 }]) "7" 7 (fun _ => none) (by decide)⟩

/-- C2 counterexample: a body whose `status` is present with the empty string as
value is not rejected: the handler answers 200 and the row of order 7, which
was "pending", now has the empty status. -/
theorem updateOrderStatus_accepts_empty_status :
    (updateOrderStatusHandler (calmEnv 0 0 0)
      (freshWorld [{ ID := 7, UserID := 1, ProductID := 5, Quantity := 2, TotalPrice := 0,
                     Status := "pending", CreatedAt := 0 }]) "7"
      (Except.ok (fun k => if k = "status" then some "" else none))).2 =
      ⟨200, Payload.statusUpdated
        { ID := 7, UserID := 1, ProductID := 5, Quantity := 2, TotalPrice := 0,
          Status := "", CreatedAt := 0 }⟩ ∧
    (updateOrderStatusHandler (calmEnv 0 0 0)
      (freshWorld [{ ID := 7, UserID := 1, ProductID := 5, Quantity := 2, TotalPrice := 0,
                     Status := "pending", CreatedAt := 0 }]) "7"
      (Except.ok (fun k => if k = "status" then some "" else none))).1.orders =
      [{ ID := 7, UserID := 1, ProductID := 5, Quantity := 2, TotalPrice := 0,
          Status := "", CreatedAt := 0 }] := by
  decide

/-- C7: for a decoded creation input whose `userId`, `productId` and `quantity`
pass the validation, and when the insert succeeds, the handler answers 201 with
an order that is also the row appended to the table; its status is "pending"
if the input status is empty and the input status otherwise, and its `userId`,
`productId`, `quantity` and `totalPrice` are the input's, whatever the price. -/
theorem createOrder_defaults_status_keeps_fields (env : Env) (w : World) (order : Order)
    (hu : order.UserID ≠ 0) (hp : order.ProductID ≠ 0) (hq : order.Quantity ≠ 0)
    (hdb : env.dbError = none) :
    ∃ o : Order,
      (createOrderHandler env w (Except.ok order)).2 = ⟨201, Payload.created o⟩ ∧
      (createOrderHandler env w (Except.ok order)).1.orders = w.orders ++ [o] ∧
      (order.Status = "" → o.Status = "pending") ∧
      (order.Status ≠ "" → o.Status = order.Status) ∧
      o.UserID = order.UserID ∧ o.ProductID = order.ProductID ∧
      o.Quantity = order.Quantity ∧ o.TotalPrice = order.TotalPrice ∧
      o.ID = env.insertedID ∧ o.CreatedAt = env.insertedAt := by
  rw [createOrderHandler_ok env w order hu hp hq hdb]
  refine ⟨_, rfl, rfl, ?_, ?_, rfl, rfl, rfl, rfl, rfl, rfl⟩
  · intro h; simp [h]
  · intro h; simp [h]

/-- C7 witness: the input `{userId:1, productId:5, quantity:2, totalPrice:19.98}`. -/
theorem createOrder_defaults_status_keeps_fields_witness :
    ∃ o : Order,
      (createOrderHandler (calmEnv 0 1 50) (freshWorld [])
        (Except.ok { Order.zero with UserID := 1, ProductID := 5, Quantity := 2,
                                     TotalPrice := 1998 / 100 })).2 =
        ⟨201, Payload.created o⟩ ∧
      (createOrderHandler (calmEnv 0 1 50) (freshWorld [])
        (Except.ok { Order.zero with UserID := 1, ProductID := 5, Quantity := 2,
                                     TotalPrice := 1998 / 100 })).1.orders =
        (freshWorld []).orders ++ [o] ∧
      (Order.zero.Status = "" → o.Status = "pending") ∧
      (Order.zero.Status ≠ "" → o.Status = Order.zero.Status) ∧
      o.UserID = 1 ∧ o.ProductID = 5 ∧ o.Quantity = 2 ∧ o.TotalPrice = 1998 / 100 ∧
      o.ID = 1 ∧ o.CreatedAt = 50 :=
  createOrder_defaults_status_keeps_fields (calmEnv 0 1 50) (freshWorld [])
    { Order.zero with UserID := 1, ProductID := 5, Quantity := 2, TotalPrice := 1998 / 100 }
    (by decide) (by decide) (by decide) rfl

/-- C8: whenever `createOrderHandler` or `updateOrderStatusHandler` answers
HTTP 400, the world after the request is the world before it: same table, same
cache, and no store or cache call added to the list of calls issued. -/
theorem invalidInput_issues_no_call (env : Env) (w : World) (body : Except String Order)
    (idVar : String) (patch : Except String (String → Option String)) :
    ((createOrderHandler env w body).2.code = 400 → (createOrderHandler env w body).1 = w) ∧
    ((updateOrderStatusHandler env w idVar patch).2.code = 400 →
      (updateOrderStatusHandler env w idVar patch).1 = w) := by
  constructor
  · intro hc
    cases body with
    | error e => rfl
    | ok order =>
      rw [createOrderHandler_invalid env w order (createOrderHandler_badRequest env w order hc)]
  · intro hc
    cases hid : atoi idVar with
    | none => simp [updateOrderStatusHandler, hid]
    | some orderID =>
      cases patch with
      | error e => simp [updateOrderStatusHandler, hid]
      | ok data =>
        rw [updateOrderStatusHandler_absent env w idVar orderID data hid
          (updateOrderStatusHandler_badRequest env w idVar orderID data hid hc)]

/-- C8 witness: a creation input without `userId` and a status update without
`status`, both against a table holding order 7. -/
theorem invalidInput_issues_no_call_witness :
    ((createOrderHandler (calmEnv 0 8 0) (freshWorld [{ Order.zero with ID := 7 }])
        (Except.ok { Order.zero with ProductID := 5, Quantity := 2 })).2.code = 400 ∧
      (createOrderHandler (calmEnv 0 8 0) (freshWorld [{ Order.zero with ID := 7 }])
        (Except.ok { Order.zero with ProductID := 5, Quantity := 2 })).1 =
        freshWorld [{ Order.zero with ID := 7 }]) ∧
    ((updateOrderStatusHandler (calmEnv 0 8 0) (freshWorld [{ Order.zero with ID := 7 }]) "7"
        (Except.ok (fun _ => none))).2.code = 400 ∧
      (updateOrderStatusHandler (calmEnv 0 8 0) (freshWorld [{ Order.zero with ID := 7 }]) "7"
        (Except.ok (fun _ => none))).1 = freshWorld [{ Order.zero with ID := 7 }]) :=
  ⟨⟨by decide,
      (invalidInput_issues_no_call (calmEnv 0 8 0) (freshWorld [{ Order.zero with ID := 7 }])
        (Except.ok { Order.zero with ProductID := 5, Quantity := 2 }) "7"
        (Except.ok (fun _ => none))).1 (by decide)⟩,
    ⟨by decide,
      (invalidInput_issues_no_call (calmEnv 0 8 0) (freshWorld [{ Order.zero with ID := 7 }])
        (Except.ok { Order.zero with ProductID := 5, Quantity := 2 }) "7"
        (Except.ok (fun _ => none))).2 (by decide)⟩⟩


/-! ## Facts about the table -/

/-- A selected row is in the table and has the id asked for. -/
theorem selectByID_some (rows : List Order) (id : Int) (o : Order)
    (h : selectByID rows id = some o) : o ∈ rows ∧ o.ID = id := by
  unfold selectByID at h
  exact ⟨List.mem_of_find?_eq_some h, by simpa using List.find?_some h⟩

/-- Selection by id looks at the first row, then at the rest. -/
theorem selectByID_cons (r : Order) (rs : List Order) (id : Int) :
    selectByID (r :: rs) id = if r.ID = id then some r else selectByID rs id := by
  unfold selectByID
  rw [List.find?_cons]
  by_cases h : r.ID = id <;> simp [h]

/-- The status update acts row by row. -/
theorem setStatus_cons (r : Order) (rs : List Order) (status : String) (id : Int) :
    setStatus (r :: rs) status id =
      (if r.ID = id then { r with Status := status } else r) :: setStatus rs status id := rfl

/-- After a status update the row of the updated id is the old row with the new status. -/
theorem selectByID_setStatus_same (rows : List Order) (status : String) (id : Int) :
    selectByID (setStatus rows status id) id =
      (selectByID rows id).map (fun o => { o with Status := status }) := by
  induction rows with
  | nil => rfl
  | cons r rs ih =>
    rw [setStatus_cons, selectByID_cons, selectByID_cons, ih]
    by_cases hr : r.ID = id <;> simp [hr]

/-- A status update leaves the rows of other ids as they were. -/
theorem selectByID_setStatus_other (rows : List Order) (status : String) (id other : Int)
    (hne : other ≠ id) :
    selectByID (setStatus rows status id) other = selectByID rows other := by
  induction rows with
  | nil => rfl
  | cons r rs ih =>
    rw [setStatus_cons, selectByID_cons, selectByID_cons, ih]
    by_cases hr : r.ID = id
    · have hro : ¬ id = other := fun h => hne h.symm
      simp [hr, hro]
    · simp [hr]

/-- Appending a row does not change which row an id already selects. -/
theorem selectByID_append (rows : List Order) (o : Order) (id : Int) :
    selectByID (rows ++ [o]) id =
      (selectByID rows id).or (if o.ID = id then some o else none) := by
  unfold selectByID
  rw [List.find?_append]
  by_cases h : o.ID = id <;> simp [List.find?, h]

/-- The listing has exactly the rows of the table. -/
theorem mem_selectAll (rows : List Order) (o : Order) : o ∈ selectAll rows ↔ o ∈ rows :=
  (List.perm_insertionSort _ rows).mem_iff

/-- No row is selected exactly when no row has the id. -/
theorem selectByID_eq_none (rows : List Order) (id : Int) :
    selectByID rows id = none ↔ ∀ o ∈ rows, o.ID ≠ id := by
  unfold selectByID
  simp [List.find?_eq_none]


/-! ## Successful writes -/

/-- What a 200 answer of `updateOrderStatusHandler` implies. -/
theorem updateOrderStatusHandler_success (env : Env) (w : World) (idVar : String)
    (body : Except String (String → Option String))
    (hc : (updateOrderStatusHandler env w idVar body).2.code = 200) :
    ∃ (orderID : Int) (data : String → Option String) (status : String) (o : Order),
      atoi idVar = some orderID ∧ body = Except.ok data ∧ data "status" = some status ∧
      env.dbError = none ∧ selectByID (setStatus w.orders status orderID) orderID = some o ∧
      updateOrderStatusHandler env w idVar body =
        (redisDel env
            { w with
              orders := setStatus w.orders status orderID
              calls := w.calls ++ [Call.dbUpdateStatus status orderID] }
            ["orders:all", orderKey orderID],
          ⟨200, Payload.statusUpdated o⟩) := by
  cases hid : atoi idVar with
  | none => simp [updateOrderStatusHandler, hid] at hc
  | some orderID =>
    cases body with
    | error e => simp [updateOrderStatusHandler, hid] at hc
    | ok data =>
      cases hs : data "status" with
      | none => simp [updateOrderStatusHandler, hid, hs] at hc
      | some status =>
        cases hdb : env.dbError with
        | some e =>
          rw [updateOrderStatusHandler_dbError env w idVar orderID data status e hid hs hdb] at hc
          cases hc
        | none =>
          have h := updateOrderStatusHandler_db env w idVar orderID data status hid hs hdb
          cases hsel : selectByID (setStatus w.orders status orderID) orderID with
          | none => rw [h, hsel] at hc; cases hc
          | some o =>
            rw [hsel] at h
            exact ⟨orderID, data, status, o, rfl, rfl, hs, rfl, hsel, h⟩

/-- What a 201 answer of `createOrderHandler` implies. -/
theorem createOrderHandler_success (env : Env) (w : World) (body : Except String Order)
    (hc : (createOrderHandler env w body).2.code = 201) :
    ∃ order : Order, body = Except.ok order ∧ order.UserID ≠ 0 ∧ order.ProductID ≠ 0 ∧
      order.Quantity ≠ 0 ∧ env.dbError = none := by
  cases body with
  | error e => simp [createOrderHandler] at hc
  | ok order =>
    by_cases hz : order.UserID = 0 ∨ order.ProductID = 0 ∨ order.Quantity = 0
    · rw [createOrderHandler_invalid env w order hz] at hc; cases hc
    · simp only [not_or] at hz
      obtain ⟨hu, hp, hq⟩ := hz
      cases hdb : env.dbError with
      | some e => rw [createOrderHandler_dbError env w order e hu hp hq hdb] at hc; cases hc
      | none => exact ⟨order, rfl, hu, hp, hq, rfl⟩

/-- A key without entry is a miss at every instant. -/
theorem cache_get_none_of_entry_none (c : Cache) (now : Nat) (key : String)
    (h : c key = none) : c.get now key = none := by
  simp [Cache.get, h]

/-! ## Reads after writes (C3, C4) -/

/-- C3: when `updateOrderStatusHandler` answers 200 for order `orderID` and
status `status`, with its `Del` taking effect, no entry is left under
`order:<id>`, whatever was cached before; the next `getOrderHandler` for that
id, when its store query succeeds, answers 200 from the database with the
order of that id whose status is `status`. -/
theorem getOrder_after_update_reads_store (enc : Encoder) (envU envG : Env) (w : World)
    (idVar : String) (orderID : Int) (data : String → Option String) (status : String)
    (hid : atoi idVar = some orderID) (hs : data "status" = some status)
    (hok : (updateOrderStatusHandler envU w idVar (Except.ok data)).2.code = 200)
    (hdel : envU.redisDelFails = false) (hdb : envG.dbError = none) :
    (updateOrderStatusHandler envU w idVar (Except.ok data)).1.cache (orderKey orderID) = none ∧
    ∃ o : Order,
      (getOrderHandler enc envG
        (updateOrderStatusHandler envU w idVar (Except.ok data)).1 idVar).2 =
        ⟨200, Payload.orderFromDatabase o⟩ ∧
      Payload.source (Payload.orderFromDatabase o) = some "database" ∧
      o.Status = status ∧ o.ID = orderID := by
  obtain ⟨id2, data2, status2, o, hid2, hbody, hs2, -, hsel, heq⟩ :=
    updateOrderStatusHandler_success envU w idVar (Except.ok data) hok
  have e1 : id2 = orderID := Option.some.inj (hid2.symm.trans hid)
  have e2 : data2 = data := (Except.ok.inj hbody).symm
  subst e1 e2
  have e3 : status2 = status := Option.some.inj (hs2.symm.trans hs)
  subst e3
  rw [heq]
  have hnone : (redisDel envU
      { w with
        orders := setStatus w.orders status2 id2
        calls := w.calls ++ [Call.dbUpdateStatus status2 id2] }
      ["orders:all", orderKey id2]).cache (orderKey id2) = none := by
    simp [redisDel, hdel, Cache.del]
  refine ⟨hnone, o, ?_, rfl, ?_, (selectByID_some _ _ _ hsel).2⟩
  · rw [getOrderHandler_miss enc envG _ idVar id2 hid
      (Or.inr (cache_get_none_of_entry_none _ _ _ hnone)) hdb]
    have : selectByID (redisDel envU
        { w with
          orders := setStatus w.orders status2 id2
          calls := w.calls ++ [Call.dbUpdateStatus status2 id2] }
        ["orders:all", orderKey id2]).orders id2 = some o := hsel
    rw [this]
  · rw [selectByID_setStatus_same] at hsel
    cases h0 : selectByID w.orders id2 with
    | none => rw [h0] at hsel; cases hsel
    | some o0 =>
      rw [h0] at hsel
      have := Option.some.inj hsel
      rw [← this]


/-- C3 witness: order 7 is pending and the text "old" is cached under
`order:7`; after the status update to "shipped" the next read comes from the
database. -/
theorem getOrder_after_update_reads_store_witness :
    atoi "7" = some 7 ∧ shippedPatch "status" = some "shipped" ∧
    (updateOrderStatusHandler (calmEnv 10 0 0) staleWorld "7" (Except.ok shippedPatch)).2.code
      = 200 ∧
    ((updateOrderStatusHandler (calmEnv 10 0 0) staleWorld "7"
        (Except.ok shippedPatch)).1.cache (orderKey 7) = none ∧
      ∃ o : Order,
        (getOrderHandler sampleEncoder (calmEnv 11 0 0)
          (updateOrderStatusHandler (calmEnv 10 0 0) staleWorld "7"
            (Except.ok shippedPatch)).1 "7").2 =
          ⟨200, Payload.orderFromDatabase o⟩ ∧
        Payload.source (Payload.orderFromDatabase o) = some "database" ∧
        o.Status = "shipped" ∧ o.ID = 7) :=
  ⟨by decide, by decide, by decide,
    getOrder_after_update_reads_store sampleEncoder (calmEnv 10 0 0) (calmEnv 11 0 0) staleWorld
      "7" 7 shippedPatch "shipped" (by decide) (by decide) (by decide) rfl rfl⟩

/-- C4: after `createOrderHandler` answers 201 or `updateOrderStatusHandler`
answers 200, with the `Del` taking effect, no entry is left under `orders:all`;
the next `getOrdersHandler`, when its store query succeeds, answers 200 from the
database with the listing of the table as the write left it, and that listing
holds the order the write returned (for an update, with the status supplied). -/
theorem getOrders_after_write_reads_store (enc : Encoder) (envW envG : Env) (w : World)
    (hdel : envW.redisDelFails = false) (hdb : envG.dbError = none) :
    (∀ body : Except String Order, (createOrderHandler envW w body).2.code = 201 →
      (createOrderHandler envW w body).1.cache "orders:all" = none ∧
      ∃ o : Order,
        (createOrderHandler envW w body).2.payload = Payload.created o ∧
        (getOrdersHandler enc envG (createOrderHandler envW w body).1).2 =
          ⟨200, Payload.ordersFromDatabase
            (selectAll (createOrderHandler envW w body).1.orders)⟩ ∧
        o ∈ selectAll (createOrderHandler envW w body).1.orders) ∧
    (∀ (idVar : String) (data : String → Option String) (status : String),
      data "status" = some status →
      (updateOrderStatusHandler envW w idVar (Except.ok data)).2.code = 200 →
      (updateOrderStatusHandler envW w idVar (Except.ok data)).1.cache "orders:all" = none ∧
      ∃ o : Order,
        (updateOrderStatusHandler envW w idVar (Except.ok data)).2.payload =
          Payload.statusUpdated o ∧
        (getOrdersHandler enc envG
          (updateOrderStatusHandler envW w idVar (Except.ok data)).1).2 =
          ⟨200, Payload.ordersFromDatabase
            (selectAll (updateOrderStatusHandler envW w idVar (Except.ok data)).1.orders)⟩ ∧
        o ∈ selectAll (updateOrderStatusHandler envW w idVar (Except.ok data)).1.orders ∧
        o.Status = status) := by
  constructor
  · intro body hc
    obtain ⟨order, hbody, hu, hp, hq, hdbW⟩ := createOrderHandler_success envW w body hc
    subst hbody
    rw [createOrderHandler_ok envW w order hu hp hq hdbW]
    have hnone : (redisDel envW
        { w with
          orders := w.orders ++
            [{ order with
                ID := envW.insertedID
                Status := if order.Status = "" then "pending" else order.Status
                CreatedAt := envW.insertedAt }]
          calls := w.calls ++ [Call.dbInsert order.UserID order.ProductID order.Quantity
            order.TotalPrice (if order.Status = "" then "pending" else order.Status)] }
        ["orders:all"]).cache "orders:all" = none := by
      simp [redisDel, hdel, Cache.del]
    refine ⟨hnone, _, rfl, ?_, ?_⟩
    · rw [getOrdersHandler_miss enc envG _
        (Or.inr (cache_get_none_of_entry_none _ _ _ hnone)) hdb]
    · rw [mem_selectAll]
      simp [redisDel]
  · intro idVar data status hs hc
    obtain ⟨id2, data2, status2, o, hid2, hbody, hs2, -, hsel, heq⟩ :=
      updateOrderStatusHandler_success envW w idVar (Except.ok data) hc
    have e2 : data2 = data := (Except.ok.inj hbody).symm
    subst e2
    have e3 : status2 = status := Option.some.inj (hs2.symm.trans hs)
    subst e3
    rw [heq]
    have hnone : (redisDel envW
        { w with
          orders := setStatus w.orders status2 id2
          calls := w.calls ++ [Call.dbUpdateStatus status2 id2] }
        ["orders:all", orderKey id2]).cache "orders:all" = none := by
      simp [redisDel, hdel, Cache.del]
    refine ⟨hnone, o, rfl, ?_, ?_, ?_⟩
    · rw [getOrdersHandler_miss enc envG _
        (Or.inr (cache_get_none_of_entry_none _ _ _ hnone)) hdb]
    · rw [mem_selectAll]
      exact (selectByID_some _ _ _ hsel).1
    · rw [selectByID_setStatus_same] at hsel
      cases h0 : selectByID w.orders id2 with
      | none => rw [h0] at hsel; cases hsel
      | some o0 =>
        rw [h0] at hsel
        have := Option.some.inj hsel
        rw [← this]

/-- C4 witness: in a world where a listing is cached under `orders:all`, a
creation and a status update each leave no entry under that key, and the next
listing comes from the database. -/
theorem getOrders_after_write_reads_store_witness :
    ((createOrderHandler (calmEnv 10 8 10) staleWorld
        (Except.ok { Order.zero with UserID := 1, ProductID := 5, Quantity := 2 })).2.code
        = 201 ∧
      ((createOrderHandler (calmEnv 10 8 10) staleWorld
          (Except.ok { Order.zero with UserID := 1, ProductID := 5, Quantity := 2 })).1.cache
          "orders:all" = none ∧
        ∃ o : Order,
          (createOrderHandler (calmEnv 10 8 10) staleWorld
            (Except.ok { Order.zero with UserID := 1, ProductID := 5, Quantity := 2 })).2.payload
            = Payload.created o ∧
          (getOrdersHandler sampleEncoder (calmEnv 11 0 0)
            (createOrderHandler (calmEnv 10 8 10) staleWorld
              (Except.ok { Order.zero with UserID := 1, ProductID := 5, Quantity := 2 })).1).2 =
            ⟨200, Payload.ordersFromDatabase
              (selectAll (createOrderHandler (calmEnv 10 8 10) staleWorld
                (Except.ok
                  { Order.zero with UserID := 1, ProductID := 5, Quantity := 2 })).1.orders)⟩ ∧
          o ∈ selectAll (createOrderHandler (calmEnv 10 8 10) staleWorld
            (Except.ok
              { Order.zero with UserID := 1, ProductID := 5, Quantity := 2 })).1.orders)) ∧
    ((updateOrderStatusHandler (calmEnv 10 8 10) staleWorld "7" (Except.ok shippedPatch)).2.code
        = 200 ∧
      ((updateOrderStatusHandler (calmEnv 10 8 10) staleWorld "7"
          (Except.ok shippedPatch)).1.cache "orders:all" = none ∧
        ∃ o : Order,
          (updateOrderStatusHandler (calmEnv 10 8 10) staleWorld "7"
            (Except.ok shippedPatch)).2.payload = Payload.statusUpdated o ∧
          (getOrdersHandler sampleEncoder (calmEnv 11 0 0)
            (updateOrderStatusHandler (calmEnv 10 8 10) staleWorld "7"
              (Except.ok shippedPatch)).1).2 =
            ⟨200, Payload.ordersFromDatabase
              (selectAll (updateOrderStatusHandler (calmEnv 10 8 10) staleWorld "7"
                (Except.ok shippedPatch)).1.orders)⟩ ∧
          o ∈ selectAll (updateOrderStatusHandler (calmEnv 10 8 10) staleWorld "7"
            (Except.ok shippedPatch)).1.orders ∧
          o.Status = "shipped")) :=
  ⟨⟨by decide,
      (getOrders_after_write_reads_store sampleEncoder (calmEnv 10 8 10) (calmEnv 11 0 0)
        staleWorld rfl rfl).1 _ (by decide)⟩,
    ⟨by decide,
      (getOrders_after_write_reads_store sampleEncoder (calmEnv 10 8 10) (calmEnv 11 0 0)
        staleWorld rfl rfl).2 "7" shippedPatch "shipped" (by decide) (by decide)⟩⟩


/-! ## Reads (C5, C6, C9) -/

/-- C5: whatever the Redis commands do (hit, miss or error on `Get`, success or
error on `Set`), `getOrdersHandler` answers 200 whenever the store query
succeeds; when `Get` returns an error the answer is the listing of the table
with source "database", the same answer as for a miss. -/
theorem getOrders_survives_cache_failure (enc : Encoder) (env : Env) (w : World)
    (hdb : env.dbError = none) :
    (getOrdersHandler enc env w).2.code = 200 ∧
    (env.redisGetFails = true →
      (getOrdersHandler enc env w).2 =
        ⟨200, Payload.ordersFromDatabase (selectAll w.orders)⟩) ∧
    (w.cache.get env.now "orders:all" = none →
      (getOrdersHandler enc env w).2 =
        ⟨200, Payload.ordersFromDatabase (selectAll w.orders)⟩) ∧
    (getOrdersHandler enc env w).1.orders = w.orders := by
  have hmiss : ∀ h : env.redisGetFails = true ∨ w.cache.get env.now "orders:all" = none,
      (getOrdersHandler enc env w).2 =
        ⟨200, Payload.ordersFromDatabase (selectAll w.orders)⟩ ∧
      (getOrdersHandler enc env w).1.orders = w.orders := by
    intro h
    rw [getOrdersHandler_miss enc env w h hdb]
    exact ⟨rfl, rfl⟩
  cases hf : env.redisGetFails with
  | true =>
    have h := hmiss (Or.inl hf)
    exact ⟨by rw [h.1], fun _ => h.1, fun _ => h.1, h.2⟩
  | false =>
    cases hg : w.cache.get env.now "orders:all" with
    | none =>
      have h := hmiss (Or.inr hg)
      exact ⟨by rw [h.1], fun _ => h.1, fun _ => h.1, h.2⟩
    | some v =>
      rw [getOrdersHandler_hit enc env w v hf hg]
      exact ⟨rfl, fun h => (by cases h), fun h => (by cases h), rfl⟩

/-- C5 witness: Redis is unreachable for the whole request, a listing being
cached; the answer is 200 with the table's listing. -/
theorem getOrders_survives_cache_failure_witness :
    (redisDownEnv 10).dbError = none ∧ (redisDownEnv 10).redisGetFails = true ∧
    (getOrdersHandler sampleEncoder (redisDownEnv 10) staleWorld).2.code = 200 ∧
    (getOrdersHandler sampleEncoder (redisDownEnv 10) staleWorld).2 =
      ⟨200, Payload.ordersFromDatabase (selectAll staleWorld.orders)⟩ :=
  ⟨rfl, rfl,
    (getOrders_survives_cache_failure sampleEncoder (redisDownEnv 10) staleWorld rfl).1,
    (getOrders_survives_cache_failure sampleEncoder (redisDownEnv 10) staleWorld rfl).2.1 rfl⟩

/-- C6: when nothing is cached under `order:<id>` and the store query succeeds,
`getOrderHandler` answers 404 "Order not found" if the table has no row with
that id, and then the cache is unchanged and no `Set` is issued; otherwise it
issues `Set` on the key `order:<id>` with the serialized row and a TTL of 300
seconds, which (the `Set` succeeding) changes that key only, and answers 200
with that row from the database. -/
theorem getOrder_miss_populates_or_notFound (enc : Encoder) (env : Env) (w : World)
    (idVar : String) (orderID : Int) (hid : atoi idVar = some orderID)
    (hmiss : w.cache.get env.now (orderKey orderID) = none) (hdb : env.dbError = none)
    (hset : env.redisSetFails = false) :
    (selectByID w.orders orderID = none →
      (getOrderHandler enc env w idVar).2 = ⟨404, Payload.error "Order not found"⟩ ∧
      (getOrderHandler enc env w idVar).1.cache = w.cache ∧
      (getOrderHandler enc env w idVar).1.calls =
        w.calls ++ [Call.redisGet (orderKey orderID)] ++ [Call.dbSelectByID orderID]) ∧
    (∀ o : Order, selectByID w.orders orderID = some o →
      (getOrderHandler enc env w idVar).2 = ⟨200, Payload.orderFromDatabase o⟩ ∧
      (getOrderHandler enc env w idVar).1.calls =
        w.calls ++ [Call.redisGet (orderKey orderID)] ++ [Call.dbSelectByID orderID]
          ++ [Call.redisSet (orderKey orderID) (enc.marshalOrder o) 300] ∧
      (getOrderHandler enc env w idVar).1.cache (orderKey orderID) =
        some { value := enc.marshalOrder o, expiresAt := env.now + 300 } ∧
      (∀ k : String, k ≠ orderKey orderID →
        (getOrderHandler enc env w idVar).1.cache k = w.cache k)) := by
  have h := getOrderHandler_miss enc env w idVar orderID hid (Or.inr hmiss) hdb
  constructor
  · intro hsel
    rw [hsel] at h
    rw [h]
    exact ⟨rfl, rfl, rfl⟩
  · intro o hsel
    rw [hsel] at h
    rw [h]
    refine ⟨rfl, rfl, ?_, ?_⟩
    · simp [redisSet, hset, Cache.set]
    · intro k hk
      simp [redisSet, hset, Cache.set, hk]

/-- C6 witness: order 999999 is absent from a table holding order 7, and order
7 is read with an empty cache. -/
theorem getOrder_miss_populates_or_notFound_witness :
    (atoi "999999" = some 999999 ∧
      (getOrderHandler sampleEncoder (calmEnv 10 0 0) (freshWorld [sampleOrder]) "999999").2 =
        ⟨404, Payload.error "Order not found"⟩ ∧
      (getOrderHandler sampleEncoder (calmEnv 10 0 0) (freshWorld [sampleOrder]) "999999").1.cache
        = (freshWorld [sampleOrder]).cache ∧
      (getOrderHandler sampleEncoder (calmEnv 10 0 0) (freshWorld [sampleOrder]) "999999").1.calls
        = (freshWorld [sampleOrder]).calls ++ [Call.redisGet (orderKey 999999)]
          ++ [Call.dbSelectByID 999999]) ∧
    (atoi "7" = some 7 ∧
      (getOrderHandler sampleEncoder (calmEnv 10 0 0) (freshWorld [sampleOrder]) "7").2 =
        ⟨200, Payload.orderFromDatabase sampleOrder⟩ ∧
      (getOrderHandler sampleEncoder (calmEnv 10 0 0) (freshWorld [sampleOrder]) "7").1.calls =
        (freshWorld [sampleOrder]).calls ++ [Call.redisGet (orderKey 7)]
          ++ [Call.dbSelectByID 7]
          ++ [Call.redisSet (orderKey 7) (sampleEncoder.marshalOrder sampleOrder) 300] ∧
      (getOrderHandler sampleEncoder (calmEnv 10 0 0) (freshWorld [sampleOrder]) "7").1.cache
        (orderKey 7) =
        some { value := sampleEncoder.marshalOrder sampleOrder, expiresAt := 10 + 300 } ∧
      (∀ k : String, k ≠ orderKey 7 →
        (getOrderHandler sampleEncoder (calmEnv 10 0 0) (freshWorld [sampleOrder]) "7").1.cache k
          = (freshWorld [sampleOrder]).cache k)) :=
  ⟨⟨by decide,
      (getOrder_miss_populates_or_notFound sampleEncoder (calmEnv 10 0 0)
        (freshWorld [sampleOrder]) "999999" 999999 (by decide) rfl rfl rfl).1 (by decide)⟩,
    ⟨by decide,
      (getOrder_miss_populates_or_notFound sampleEncoder (calmEnv 10 0 0)
        (freshWorld [sampleOrder]) "7" 7 (by decide) rfl rfl rfl).2 sampleOrder (by decide)⟩⟩


/-- C9, amended: for an existing order read first on a cache miss (store query
and `Set` succeeding) and read again before the 300 seconds of the entry have
run out (the `Get` succeeding, no write in between), the second answer carries
byte for byte the serialization `json.Marshal` gave for the order of the first
answer; the two bodies are that same serialization framed by the source
"database" and a final newline on the first call, by the source "cache" and no
newline on the second. -/
theorem getOrder_repeat_serves_same_serialization (enc : Encoder) (env1 env2 : Env) (w : World)
    (idVar : String) (orderID : Int) (o : Order) (hid : atoi idVar = some orderID)
    (hmiss : w.cache.get env1.now (orderKey orderID) = none)
    (hrow : selectByID w.orders orderID = some o) (hdb : env1.dbError = none)
    (hset : env1.redisSetFails = false) (hget : env2.redisGetFails = false)
    (httl : env2.now < env1.now + 300) :
    (getOrderHandler enc env1 w idVar).2 = ⟨200, Payload.orderFromDatabase o⟩ ∧
    (getOrderHandler enc env2 (getOrderHandler enc env1 w idVar).1 idVar).2 =
      ⟨200, Payload.orderFromCache (enc.marshalOrder o)⟩ ∧
    Payload.body enc (getOrderHandler enc env1 w idVar).2.payload =
      "\x7b\"order\":" ++ enc.marshalOrder o ++ ",\"source\":\"database\"\x7d\n" ∧
    Payload.body enc
        (getOrderHandler enc env2 (getOrderHandler enc env1 w idVar).1 idVar).2.payload =
      "\x7b\"order\":" ++ enc.marshalOrder o ++ ",\"source\":\"cache\"\x7d" ∧
    Payload.body enc (getOrderHandler enc env1 w idVar).2.payload ≠
      Payload.body enc
        (getOrderHandler enc env2 (getOrderHandler enc env1 w idVar).1 idVar).2.payload := by
  have h := getOrderHandler_miss enc env1 w idVar orderID hid (Or.inr hmiss) hdb
  rw [hrow] at h
  have hhit : (redisSet env1
      { w with calls := w.calls ++ [Call.redisGet (orderKey orderID)]
                ++ [Call.dbSelectByID orderID] }
      (orderKey orderID) (enc.marshalOrder o) 300).cache.get env2.now (orderKey orderID) =
      some (enc.marshalOrder o) := by
    simp [redisSet, hset, Cache.set, Cache.get, httl]
  rw [h, getOrderHandler_hit enc env2 _ idVar orderID (enc.marshalOrder o) hid hget hhit]
  refine ⟨rfl, rfl, rfl, rfl, ?_⟩
  intro hbody
  have hdata := congrArg String.data hbody
  simp only [Payload.body, String.data_append, List.append_assoc] at hdata
  have htail := List.append_cancel_left (List.append_cancel_left hdata)
  exact absurd htail (by decide)

/-- C9 witness: order 7 read at instant 10 and again at instant 20. -/
theorem getOrder_repeat_serves_same_serialization_witness :
    atoi "7" = some 7 ∧ (20 : Nat) < 10 + 300 ∧
    ((getOrderHandler sampleEncoder (calmEnv 10 0 0) (freshWorld [sampleOrder]) "7").2 =
        ⟨200, Payload.orderFromDatabase sampleOrder⟩ ∧
      (getOrderHandler sampleEncoder (calmEnv 20 0 0)
        (getOrderHandler sampleEncoder (calmEnv 10 0 0) (freshWorld [sampleOrder]) "7").1 "7").2 =
        ⟨200, Payload.orderFromCache (sampleEncoder.marshalOrder sampleOrder)⟩ ∧
      Payload.body sampleEncoder
          (getOrderHandler sampleEncoder (calmEnv 10 0 0) (freshWorld [sampleOrder]) "7").2.payload
        = "\x7b\"order\":" ++ sampleEncoder.marshalOrder sampleOrder
            ++ ",\"source\":\"database\"\x7d\n" ∧
      Payload.body sampleEncoder
          (getOrderHandler sampleEncoder (calmEnv 20 0 0)
            (getOrderHandler sampleEncoder (calmEnv 10 0 0) (freshWorld [sampleOrder]) "7").1
            "7").2.payload
        = "\x7b\"order\":" ++ sampleEncoder.marshalOrder sampleOrder
            ++ ",\"source\":\"cache\"\x7d" ∧
      Payload.body sampleEncoder
          (getOrderHandler sampleEncoder (calmEnv 10 0 0) (freshWorld [sampleOrder]) "7").2.payload
        ≠ Payload.body sampleEncoder
          (getOrderHandler sampleEncoder (calmEnv 20 0 0)
            (getOrderHandler sampleEncoder (calmEnv 10 0 0) (freshWorld [sampleOrder]) "7").1
            "7").2.payload) :=
  ⟨by decide, by decide,
    getOrder_repeat_serves_same_serialization sampleEncoder (calmEnv 10 0 0) (calmEnv 20 0 0)
      (freshWorld [sampleOrder]) "7" 7 sampleOrder (by decide) rfl (by decide) rfl rfl rfl
      (by decide)⟩

/-- C9 counterexample: order 7 is read at instant 10 (cache miss) and again at
instant 20, inside the TTL window and with no write in between (cache hit); the
two response bodies are not the same bytes. -/
theorem getOrder_bodies_differ_between_miss_and_hit :
    Payload.body sampleEncoder
        (getOrderHandler sampleEncoder (calmEnv 10 0 0) (freshWorld [sampleOrder]) "7").2.payload
      = "\x7b\"order\":\x7b\"id\":7,\"user_id\":1,\"product_id\":5,\"quantity\":2,\"total_price\":20,\"status\":\"pending\",\"created_at\":\"2023-11-14T22:13:20Z\"\x7d,\"source\":\"database\"\x7d\n" ∧
    Payload.body sampleEncoder
        (getOrderHandler sampleEncoder (calmEnv 20 0 0)
          (getOrderHandler sampleEncoder (calmEnv 10 0 0) (freshWorld [sampleOrder]) "7").1
          "7").2.payload
      = "\x7b\"order\":\x7b\"id\":7,\"user_id\":1,\"product_id\":5,\"quantity\":2,\"total_price\":20,\"status\":\"pending\",\"created_at\":\"2023-11-14T22:13:20Z\"\x7d,\"source\":\"cache\"\x7d" ∧
    Payload.body sampleEncoder
        (getOrderHandler sampleEncoder (calmEnv 10 0 0) (freshWorld [sampleOrder]) "7").2.payload
      ≠ Payload.body sampleEncoder
        (getOrderHandler sampleEncoder (calmEnv 20 0 0)
          (getOrderHandler sampleEncoder (calmEnv 10 0 0) (freshWorld [sampleOrder]) "7").1
          "7").2.payload := by
  decide


/-! ## Cache coherence (C10) -/

/-- Coherence depends on the table and the cache only. -/
theorem coherent_of_same_state (enc : Encoder) (w w2 : World) (ho : w2.orders = w.orders)
    (hc : w2.cache = w.cache) (h : Coherent enc w) : Coherent enc w2 := by
  unfold Coherent at *
  rw [ho, hc]
  exact h

/-- A status update for an id no row has changes nothing. -/
theorem setStatus_of_absent (rows : List Order) (status : String) (id : Int)
    (h : selectByID rows id = none) : setStatus rows status id = rows := by
  rw [selectByID_eq_none] at h
  unfold setStatus
  conv_rhs => rw [← List.map_id rows]
  apply List.map_congr_left
  intro o ho
  simp [h o ho]

/-- Serving a listing keeps the cache coherent when the result set is read to
its end or not at all. -/
theorem coherent_getOrdersHandler (enc : Encoder) (env : Env) (w : World)
    (hget : env.redisGetFails = false) (hset : env.redisSetFails = false)
    (hread : env.readsComplete) (h : Coherent enc w) :
    Coherent enc (getOrdersHandler enc env w).1 := by
  cases hg : w.cache.get env.now "orders:all" with
  | some v =>
    rw [getOrdersHandler_hit enc env w v hget hg]
    exact coherent_of_same_state enc w _ rfl rfl h
  | none =>
    cases hdb : env.dbError with
    | some err =>
      cases err with
      | failed e =>
        rw [getOrdersHandler_dbError enc env w e (Or.inr hg) hdb]
        exact coherent_of_same_state enc w _ rfl rfl h
      | cutShort rowsRead e => exact absurd hdb (hread rowsRead e)
    | none =>
      rw [getOrdersHandler_miss enc env w (Or.inr hg) hdb]
      constructor
      · intro id e he
        have hk : orderKey id ≠ "orders:all" := orderKey_ne_ordersAll id
        simp only [redisSet, hset, Cache.set, hk, if_false, Bool.false_eq_true] at he
        exact h.1 id e he
      · intro e he
        simp only [redisSet, hset, Cache.set, if_true, if_false, Bool.false_eq_true,
          Option.some.injEq] at he
        rw [← he]
        rfl

/-- Serving one order keeps the cache coherent. -/
theorem coherent_getOrderHandler (enc : Encoder) (env : Env) (w : World) (idVar : String)
    (hget : env.redisGetFails = false) (hset : env.redisSetFails = false)
    (h : Coherent enc w) : Coherent enc (getOrderHandler enc env w idVar).1 := by
  cases hid : atoi idVar with
  | none =>
    have : getOrderHandler enc env w idVar = (w, ⟨400, Payload.error "Invalid order ID"⟩) := by
      simp [getOrderHandler, hid]
    rw [this]
    exact h
  | some orderID =>
    cases hg : w.cache.get env.now (orderKey orderID) with
    | some v =>
      rw [getOrderHandler_hit enc env w idVar orderID v hid hget hg]
      exact coherent_of_same_state enc w _ rfl rfl h
    | none =>
      cases hdb : env.dbError with
      | some e =>
        rw [getOrderHandler_dbError enc env w idVar orderID e hid (Or.inr hg) hdb]
        exact coherent_of_same_state enc w _ rfl rfl h
      | none =>
        rw [getOrderHandler_miss enc env w idVar orderID hid (Or.inr hg) hdb]
        cases hsel : selectByID w.orders orderID with
        | none => exact coherent_of_same_state enc w _ rfl rfl h
        | some o =>
          constructor
          · intro id e he
            by_cases hk : orderKey id = orderKey orderID
            · have hidEq : id = orderID := orderKey_injective id orderID hk
              subst hidEq
              simp only [redisSet, hset, Cache.set, if_true, if_false, Bool.false_eq_true,
                Option.some.injEq] at he
              exact ⟨o, hsel, by rw [← he]⟩
            · simp only [redisSet, hset, Cache.set, hk, if_false, Bool.false_eq_true] at he
              exact h.1 id e he
          · intro e he
            have hk : "orders:all" ≠ orderKey orderID := fun x => orderKey_ne_ordersAll _ x.symm
            simp only [redisSet, hset, Cache.set, hk, if_false, Bool.false_eq_true] at he
            exact h.2 e he

/-- Creating an order keeps the cache coherent. -/
theorem coherent_createOrderHandler (enc : Encoder) (env : Env) (w : World)
    (body : Except String Order) (hdel : env.redisDelFails = false)
    (h : Coherent enc w) : Coherent enc (createOrderHandler env w body).1 := by
  cases body with
  | error e => exact h
  | ok order =>
    by_cases hz : order.UserID = 0 ∨ order.ProductID = 0 ∨ order.Quantity = 0
    · rw [createOrderHandler_invalid env w order hz]
      exact h
    · simp only [not_or] at hz
      obtain ⟨hu, hp, hq⟩ := hz
      cases hdb : env.dbError with
      | some e =>
        rw [createOrderHandler_dbError env w order e hu hp hq hdb]
        exact coherent_of_same_state enc w _ rfl rfl h
      | none =>
        rw [createOrderHandler_ok env w order hu hp hq hdb]
        constructor
        · intro id e he
          have hk : orderKey id ≠ "orders:all" := orderKey_ne_ordersAll id
          simp only [redisDel, hdel, Cache.del, List.mem_singleton, hk, if_false,
            Bool.false_eq_true] at he
          obtain ⟨o, ho, hv⟩ := h.1 id e he
          refine ⟨o, ?_, hv⟩
          simp only [redisDel]
          rw [selectByID_append, ho]
          rfl
        · intro e he
          simp [redisDel, hdel, Cache.del] at he

/-- Updating a status keeps the cache coherent. -/
theorem coherent_updateOrderStatusHandler (enc : Encoder) (env : Env) (w : World)
    (idVar : String) (body : Except String (String → Option String))
    (hdel : env.redisDelFails = false) (h : Coherent enc w) :
    Coherent enc (updateOrderStatusHandler env w idVar body).1 := by
  cases hid : atoi idVar with
  | none =>
    have : updateOrderStatusHandler env w idVar body =
        (w, ⟨400, Payload.error "Invalid order ID"⟩) := by
      simp [updateOrderStatusHandler, hid]
    rw [this]
    exact h
  | some orderID =>
    cases body with
    | error e =>
      have : updateOrderStatusHandler env w idVar (Except.error e) =
          (w, ⟨400, Payload.error e⟩) := by
        simp [updateOrderStatusHandler, hid]
      rw [this]
      exact h
    | ok data =>
      cases hs : data "status" with
      | none =>
        rw [updateOrderStatusHandler_absent env w idVar orderID data hid hs]
        exact h
      | some status =>
        cases hdb : env.dbError with
        | some e =>
          rw [updateOrderStatusHandler_dbError env w idVar orderID data status e hid hs hdb]
          exact coherent_of_same_state enc w _ rfl rfl h
        | none =>
          rw [updateOrderStatusHandler_db env w idVar orderID data status hid hs hdb]
          cases hsel : selectByID (setStatus w.orders status orderID) orderID with
          | none =>
            have habs : selectByID w.orders orderID = none := by
              rw [selectByID_setStatus_same] at hsel
              cases h0 : selectByID w.orders orderID with
              | none => rfl
              | some o0 => rw [h0] at hsel; cases hsel
            exact coherent_of_same_state enc w _
              (setStatus_of_absent w.orders status orderID habs) rfl h
          | some o =>
            constructor
            · intro id e he
              by_cases hk : orderKey id = orderKey orderID
              · simp [redisDel, hdel, Cache.del, hk] at he
              · have hk2 : orderKey id ≠ "orders:all" := orderKey_ne_ordersAll id
                have hne : id ≠ orderID := fun x => hk (by rw [x])
                simp only [redisDel, hdel, Cache.del, List.mem_cons, List.mem_singleton, hk, hk2,
                  or_self, if_false, Bool.false_eq_true, List.not_mem_nil] at he
                obtain ⟨o1, ho1, hv⟩ := h.1 id e he
                refine ⟨o1, ?_, hv⟩
                simp only [redisDel]
                rw [selectByID_setStatus_other _ _ _ _ hne]
                exact ho1
            · intro e he
              simp [redisDel, hdel, Cache.del] at he

/-- Expiry of a key keeps the cache coherent. -/
theorem coherent_expire (enc : Encoder) (w : World) (key : String) (h : Coherent enc w) :
    Coherent enc (expire w key) := by
  constructor
  · intro id e he
    by_cases hk : orderKey id = key
    · simp [expire, Cache.del, hk] at he
    · simp only [expire, Cache.del, List.mem_singleton, hk, if_false] at he
      exact h.1 id e he
  · intro e he
    by_cases hk : "orders:all" = key
    · simp [expire, Cache.del, hk] at he
    · simp only [expire, Cache.del, List.mem_singleton, hk, if_false] at he
      exact h.2 e he

/-- Serving any request keeps the cache coherent when the Redis commands
succeed and the result set is read to its end or not at all. -/
theorem coherent_serve (enc : Encoder) (env : Env) (w : World) (req : Request)
    (hup : env.redisUp) (hread : env.readsComplete) (h : Coherent enc w) :
    Coherent enc (serve enc env w req).1 := by
  obtain ⟨hget, hset, hdel⟩ := hup
  cases req with
  | getOrders => exact coherent_getOrdersHandler enc env w hget hset hread h
  | getOrder idVar => exact coherent_getOrderHandler enc env w idVar hget hset h
  | createOrder body => exact coherent_createOrderHandler enc env w body hdel h
  | updateOrderStatus idVar body =>
    exact coherent_updateOrderStatusHandler enc env w idVar body hdel h

/-- C10, the code against the claim: the table holds orders 7 and 8, the cache
is empty and every Redis command succeeds; `getOrdersHandler` is served while
the result set breaks after its first row. The loop over `rows.Next()` ends,
`rows.Err()` is not read, and the handler answers 200 with order 8 alone and
caches that text under `orders:all` for 60 seconds, where the next request
finds it. The world is reachable and the entry under `orders:all` is not the
serialization of the current listing, which has both orders: the cache is not
coherent. -/
theorem getOrders_caches_truncated_listing :
    Reachable sampleEncoder
      (serve sampleEncoder (cutShortEnv 10) (freshWorld [sampleOrder, laterOrder])
        Request.getOrders).1 ∧
    (serve sampleEncoder (cutShortEnv 10) (freshWorld [sampleOrder, laterOrder])
        Request.getOrders).2 = ⟨200, Payload.ordersFromDatabase [laterOrder]⟩ ∧
    (serve sampleEncoder (cutShortEnv 10) (freshWorld [sampleOrder, laterOrder])
        Request.getOrders).1.cache "orders:all" =
      some { value := sampleEncoder.marshalOrders [laterOrder], expiresAt := 10 + 60 } ∧
    selectAll (serve sampleEncoder (cutShortEnv 10) (freshWorld [sampleOrder, laterOrder])
        Request.getOrders).1.orders = [laterOrder, sampleOrder] ∧
    (serve sampleEncoder (calmEnv 20 0 0)
        (serve sampleEncoder (cutShortEnv 10) (freshWorld [sampleOrder, laterOrder])
          Request.getOrders).1
        Request.getOrders).2 =
      ⟨200, Payload.ordersFromCache (sampleEncoder.marshalOrders [laterOrder])⟩ ∧
    ¬ Coherent sampleEncoder
      (serve sampleEncoder (cutShortEnv 10) (freshWorld [sampleOrder, laterOrder])
        Request.getOrders).1 :=
  ⟨Reachable.served _ _ _ (Reachable.start [sampleOrder, laterOrder]) (by decide) trivial,
    by decide, by decide, by decide, by decide,
    fun h => absurd
      (h.2 { value := sampleEncoder.marshalOrders [laterOrder], expiresAt := 10 + 60 }
        (by decide))
      (by decide)⟩

end OrderService
